import Mathlib

/-!
Shallow embedding of `src/server.py` (kia-mcp): chunker, resource registry,
index builders, search dispatchers, deep-research poll loop and the
memoized content-read path.  External capabilities (git, HTTP, LEANN,
tree-sitter, the filesystem) are passed in as explicit oracle arguments;
everything else is translated directly from the source.
-/

namespace KiaMcp

/-- Python `str.isspace`-style test used by `str.strip()`. -/
def isWs (c : Char) : Bool := c.isWhitespace

/-- Python `str.strip()` on a code-point list: drop whitespace from both ends. -/
def stripChars (l : List Char) : List Char :=
  ((l.dropWhile isWs).reverse.dropWhile isWs).reverse

/-- `str.strip()` on a Lean `String`. -/
def stripString (s : String) : String := ⟨stripChars s.data⟩

/-- `text[i] in '.!?\n'` from `chunk_text` (server.py line 78). -/
def isBreakChar (c : Char) : Bool :=
  c == '.' || c == '!' || c == '?' || c == '\n'

/-- The backward scan `for i in range(end, max(start, end - 200), -1)` in
`chunk_text` (server.py lines 77-79): starting at `i`, take `steps` descending
probes and return the first index holding a sentence-terminating character. -/
def findBreak (text : List Char) : Nat → Nat → Option Nat
  | _, 0 => none
  | i, steps + 1 =>
    if isBreakChar (text.getD i ' ') then some i
    else findBreak text (i - 1) steps

/-- Adjusted end offset for one iteration of the `chunk_text` while-loop
(server.py lines 74-80): `end = start + chunk_size`, pulled back to just after
the nearest sentence terminator when one occurs in the 200-unit window. -/
def chunkEnd (text : List Char) (start chunk_size : Nat) : Nat :=
  let e0 := start + chunk_size
  if e0 < text.length then
    match findBreak text e0 (e0 - max start (e0 - 200)) with
    | some i => i + 1
    | none => e0
  else e0

/-- The `while start < len(text)` loop of `chunk_text` (server.py lines 73-84),
with explicit fuel; `text[start:end].strip()` is appended when non-empty and
the window advances to `end - overlap`. -/
def chunkLoop (text : List Char) (chunk_size overlap : Nat) :
    Nat → Nat → List (List Char) → List (List Char)
  | 0, _, acc => acc
  | fuel + 1, start, acc =>
    if start < text.length then
      chunkLoop text chunk_size overlap fuel (chunkEnd text start chunk_size - overlap)
        (if stripChars ((text.drop start).take (chunkEnd text start chunk_size - start)) = []
         then acc
         else acc ++ [stripChars ((text.drop start).take (chunkEnd text start chunk_size - start))])
    else acc

/-- `chunk_text(text, chunk_size=1000, overlap=200)` (server.py lines 67-85).
Call sites use the defaults; the fuel `text.length` dominates the number of
loop iterations for those parameters. -/
def chunk_text (text : List Char) (chunk_size overlap : Nat) : List (List Char) :=
  if text.length ≤ chunk_size then [text]
  else chunkLoop text chunk_size overlap text.length 0 []

/-- A tree-sitter parse tree node: type tag, byte span, children
(external syntax-tree capability, §6 of the spec). -/
inductive TSNode where
  | node (ty : String) (startByte endByte : Nat) (children : List TSNode)

mutual

/-- `extract_chunks(node)` from `chunk_code_with_tree_sitter`
(server.py lines 96-105): emit the span of every function/class definition
longer than 50 units, otherwise recurse into the children. -/
def extractChunks (code : List Char) : TSNode → List (List Char)
  | .node ty s e children =>
    if ty == "function_definition" || ty == "class_definition" then
      if ((code.drop s).take (e - s)).length > 50 then [(code.drop s).take (e - s)] else []
    else extractChunksList code children

/-- The `for child in node.children` recursion of `extract_chunks`. -/
def extractChunksList (code : List Char) : List TSNode → List (List Char)
  | [] => []
  | n :: rest => extractChunks code n ++ extractChunksList code rest

end

/-- `chunk_code_with_tree_sitter(code)` (server.py lines 87-113); the parse is
an oracle: a raised parse failure, or a tree.  Parse failure or an empty chunk
list falls back to generic chunking. -/
def chunk_code_with_tree_sitter (code : List Char) (parse : Except String TSNode) :
    List (List Char) :=
  match parse with
  | .error _ => chunk_text code 1000 200
  | .ok root =>
    if extractChunks code root = [] then chunk_text code 1000 200
    else extractChunks code root

mutual

/-- Assumption on the external syntax-tree capability: every
function/class definition node's span of the input is non-blank after
trimming.  Any genuine tree-sitter parse satisfies this, since such a span
begins with the `def`/`class` keyword; the predicate makes the assumption
explicit rather than hard-coding it into the model. -/
def defSpansNonBlank (code : List Char) : TSNode → Bool
  | .node ty s e children =>
    (!(ty == "function_definition" || ty == "class_definition")
      || !(stripChars ((code.drop s).take (e - s))).isEmpty)
    && defSpansNonBlankList code children

/-- `defSpansNonBlank` over a child list. -/
def defSpansNonBlankList (code : List Char) : List TSNode → Bool
  | [] => true
  | n :: rest => defSpansNonBlank code n && defSpansNonBlankList code rest

end

/-- A resource's location: a filesystem path or a URL
(the `'path'` / `'url'` keys of the registry dicts). -/
inductive Location where
  | path (p : String)
  | url (u : String)
deriving DecidableEq

/-- Registry metadata, the dict value stored in `resources`
(e.g. `{'type': 'repository', 'path': ..., 'status': 'indexed'}`). -/
structure Resource where
  rtype : String
  loc : Location
  status : String
deriving DecidableEq

/-- `resources[id].get('path') or resources[id].get('url')` collapsed onto the
tagged location (server.py line 467). -/
def locStr : Location → String
  | .path p => p
  | .url u => u

/-- A live LEANN searcher handle: query text to a result, or a raised error. -/
def Searcher := String → Except String String

/-- The module-level mutable state of server.py: `searchers`,
`package_searchers`, `resources` (dicts modelled as partial maps) and the
`lru_cache` table of `read_source_content` (most-recent-first list). -/
structure ServerState where
  searchers : String → Option Searcher
  packageSearchers : String → Option Searcher
  resources : String → Option Resource
  readCache : List (String × String)

/-- The state at process start with no persisted snapshot. -/
def emptyState : ServerState :=
  ⟨fun _ => none, fun _ => none, fun _ => none, []⟩

/-- Python dict write `d[k] = v` (with `v = none` for `del d[k]`/`pop`). -/
def update {β : Type} (f : String → Option β) (k : String) (v : Option β) :
    String → Option β :=
  fun q => if q = k then v else f q

/-- `check_resource_status(identifier)` (server.py lines 351-355). -/
def check_resource_status (σ : ServerState) (identifier : String) : String :=
  match σ.resources identifier with
  | some r => r.status
  | none => "Not found"

/-- `rename_resource(identifier, new_name)` (server.py lines 357-363):
`resources[new_name] = resources.pop(identifier)` with no conflict check. -/
def rename_resource (σ : ServerState) (identifier new_name : String) :
    String × ServerState :=
  match σ.resources identifier with
  | some r =>
    (s!"Renamed to {new_name}",
     { σ with resources := update (update σ.resources identifier none) new_name (some r) })
  | none => ("Not found", σ)

/-- `delete_resource(identifier)` (server.py lines 365-375): removes the
registry entry and any searcher / package-searcher handle; the
`read_source_content` cache is untouched. -/
def delete_resource (σ : ServerState) (identifier : String) :
    String × ServerState :=
  match σ.resources identifier with
  | some _ =>
    (s!"Deleted {identifier}",
     { σ with resources := update σ.resources identifier none,
              searchers := update σ.searchers identifier none,
              packageSearchers := update σ.packageSearchers identifier none })
  | none => ("Not found", σ)

/-- One iteration of the `for repo in repositories` loop shared by
`search_codebase` and `search_documentation` (server.py lines 257-266 and
330-339): a result line, a per-identifier error line, or a not-indexed line. -/
def searchEntry (σ : ServerState) (query repo : String) : String :=
  match σ.searchers repo with
  | some searcher =>
    match searcher query with
    | .ok result => s!"{repo}: {result}"
    | .error e => s!"{repo}: Error {e}"
  | none => s!"{repo}: Not indexed"

/-- The accumulation `results = []; for ...: results.append(...)` of the two
search tools, in loop order. -/
def searchLoop (σ : ServerState) (query : String) : List String → List String
  | [] => []
  | repo :: rest => searchEntry σ query repo :: searchLoop σ query rest

/-- `search_codebase(query, repositories)` (server.py lines 249-267). -/
def search_codebase (σ : ServerState) (query : String) (repositories : List String) :
    String :=
  if stripString query = "" then "Query cannot be empty."
  else if repositories = [] then "No repositories specified."
  else String.intercalate "\n" (searchLoop σ query repositories)

/-- `search_documentation(query, sources)` (server.py lines 322-340). -/
def search_documentation (σ : ServerState) (query : String) (sources : List String) :
    String :=
  if stripString query = "" then "Query cannot be empty."
  else if sources = [] then "No sources specified."
  else String.intercalate "\n" (searchLoop σ query sources)

/-- `repo_url.split('/')[-1].replace('.git', '')` (server.py line 209). -/
def repoNameOf (repo_url : String) : String :=
  ((repo_url.splitOn "/").getLastD "").replace ".git" ""

/-- `url.split('/')[-1] or 'doc'` (server.py line 303). -/
def docNameOf (url : String) : String :=
  if (url.splitOn "/").getLastD "" = "" then "doc" else (url.splitOn "/").getLastD ""

/-- `index_repository(repo_url, branch)` (server.py lines 203-247).
External effects are oracles: `pathExists` for the already-cloned test,
`clone` for the `git clone` subprocess, `chunks` for the cocoindex/tree-sitter
flow stage (lines 219-230), and `build` for the LEANN build returning a live
searcher (its `Except.error` is the exception caught at line 245).  The flow
stage sits OUTSIDE the try/except, so its failure is not converted to a
string: the overall result is `Except`-valued and a `chunks` failure
propagates as an uncaught exception past the operation boundary. -/
def index_repository (σ : ServerState) (librariesAvailable pathExists : Bool)
    (clone : Except String Unit)
    (chunks : Except String (List (List Char)))
    (build : List (List Char) → Except String Searcher)
    (repo_url branch : String) : Except String (String × ServerState) :=
  if !librariesAvailable then .ok ("Libraries not available. Install cocoindex and leann.", σ)
  else if pathExists then .ok (s!"Repository {repoNameOf repo_url} already cloned.", σ)
  else
    match clone with
    | .error stderr => .ok (s!"Git clone failed: {stderr}", σ)
    | .ok _ =>
      match chunks with
      | .error exc => .error exc
      | .ok cs =>
        match build (cs.filter (fun c => !(stripChars c).isEmpty)) with
        | .error e => .ok (s!"Error building index: {e}", σ)
        | .ok searcher =>
          .ok (s!"Indexed {repoNameOf repo_url}",
           { σ with
               searchers := update σ.searchers (repoNameOf repo_url) (some searcher),
               resources := update σ.resources (repoNameOf repo_url)
                 (some ⟨"repository", .path s!"/tmp/{repoNameOf repo_url}", "indexed"⟩) })

/-- `index_documentation(url, ...)` (server.py lines 292-320).  The HTTP GET
(including `raise_for_status`) is the `fetch` oracle; the LEANN build over
`chunk_text(content)` is the `build` oracle (its `Except.error` is the inner
exception caught at line 315, the fetch error the outer one at line 318). -/
def index_documentation (σ : ServerState) (librariesAvailable : Bool)
    (fetch : Except String String)
    (build : List (List Char) → Except String Searcher)
    (url : String) : String × ServerState :=
  if !librariesAvailable then ("Libraries not available.", σ)
  else
    match fetch with
    | .error e => (s!"Error indexing {url}: {e}", σ)
    | .ok content =>
      match build (chunk_text content.data 1000 200) with
      | .error e => (s!"Error building index: {e}", σ)
      | .ok searcher =>
        (s!"Indexed {docNameOf url}",
         { σ with
             searchers := update σ.searchers (docNameOf url) (some searcher),
             resources := update σ.resources (docNameOf url)
               (some ⟨"documentation", .url url, "indexed"⟩) })

/-- Outcome of one `requests.get(result_url, ...)` probe in the deep-research
poll loop: HTTP 200 with an extracted output, a non-200 status, or a raised
exception. -/
inductive PollResp where
  | success (output : String)
  | notReady
  | exn (msg : String)
deriving DecidableEq

/-- The `for i in range(30)` poll loop of `kia_deep_research_agent`
(server.py lines 422-430): probe the endpoint at clock `t`, return on 200,
convert a raised exception to an error string, otherwise `time.sleep(2)`
(clock advances by 2) and retry; after the budget return the
still-processing message. -/
def pollLoop (poll : Nat → PollResp) (run_id : String) : Nat → Nat → String
  | _, 0 => s!"Task {run_id} still processing"
  | t, fuel + 1 =>
    match poll t with
    | .success output => output
    | .exn e => s!"Error: {e}"
    | .notReady => pollLoop poll run_id (t + 2) fuel

/-- `kia_deep_research_agent(query)` (server.py lines 402-433): missing key
check, task submission (the POST and run-id extraction as an oracle), then
the 30-attempt poll loop started at clock 0. -/
def kia_deep_research_agent (poll : Nat → PollResp) (apiKey : Option String)
    (submit : Except String String) (query : String) : String :=
  match apiKey with
  | none => "PARALLEL_API_KEY not set"
  | some _ =>
    match submit with
    | .error e => s!"Error: {e}"
    | .ok run_id => pollLoop poll run_id 0 30

/-- Lookup in the `lru_cache` table keyed by the argument tuple. -/
def cacheFind : List (String × String) → String → Option String
  | [], _ => none
  | (k, v) :: rest, key => if k = key then some v else cacheFind rest key

/-- The body of `read_source_content(source_identifier)`
(server.py lines 464-475) without the cache: registry lookup, then the
filesystem oracle `fs` (none: not a file; `ok`: `read_text()`;
`error`: the raised read exception). -/
def readSourceUncached (fs : String → Option (Except String String))
    (σ : ServerState) (source_identifier : String) : String :=
  match σ.resources source_identifier with
  | some r =>
    match fs (locStr r.loc) with
    | some (.ok t) => t
    | some (.error e) => s!"Error reading file: {e}"
    | none => s!"Content from {locStr r.loc}"
  | none => "Not found"

/-- `read_source_content` as deployed: wrapped in `@lru_cache(maxsize=64)`
(server.py line 463).  A hit returns the memo and promotes the key; a miss
computes, then inserts with LRU truncation at 64 entries. -/
def read_source_content (fs : String → Option (Except String String))
    (σ : ServerState) (source_identifier : String) : String × ServerState :=
  match cacheFind σ.readCache source_identifier with
  | some v =>
    (v, { σ with readCache :=
            (source_identifier, v) :: σ.readCache.filter (fun e => e.1 != source_identifier) })
  | none =>
    (readSourceUncached fs σ source_identifier,
     { σ with readCache :=
         ((source_identifier, readSourceUncached fs σ source_identifier) :: σ.readCache).take 64 })

/-- Sample repository metadata used by concrete instantiations. -/
def sampleRepo : Resource := ⟨"repository", .path "/tmp/proj", "indexed"⟩

/-- Sample documentation metadata used by concrete instantiations. -/
def sampleDoc : Resource := ⟨"documentation", .url "https://example.com/guide", "indexed"⟩

/-- A registry holding only `"a"`. -/
def stateA : ServerState :=
  { emptyState with resources := update (fun _ => none) "a" (some sampleRepo) }

/-- A registry holding `"a"` and `"b"`. -/
def stateAB : ServerState :=
  { emptyState with
      resources := update (update (fun _ => none) "a" (some sampleRepo)) "b" (some sampleDoc) }

/-- A searcher that always succeeds. -/
def okSearcher : Searcher := fun _ => .ok "match"

/-- A searcher that always raises. -/
def badSearcher : Searcher := fun _ => .error "boom"

/-- A handle table with one working and one failing searcher. -/
def stateSearch : ServerState :=
  { emptyState with
      searchers := update (update (fun _ => none) "x" (some okSearcher)) "y" (some badSearcher) }

/-- A registry holding `"x"` with an empty read cache. -/
def stateCache : ServerState :=
  { emptyState with resources := update (fun _ => none) "x" (some sampleRepo) }

/-- A concrete Python function source used by the code-chunking witness. -/
def sampleCode : List Char :=
  "def f(x):\n    return x + x + x + x + x + x + x + x + x + x".data

/-- A concrete parse of `sampleCode`: a module node holding one
function-definition node spanning the whole input. -/
def sampleTree : TSNode :=
  .node "module" 0 sampleCode.length [.node "function_definition" 0 sampleCode.length []]

/-! ## Helper lemmas -/

theorem dropWhile_head_false {α : Type} (p : α → Bool) (l : List α) (x : α) (xs : List α)
    (h : l.dropWhile p = x :: xs) : p x = false := by
  induction l with
  | nil => simp [List.dropWhile] at h
  | cons a t ih =>
    rw [List.dropWhile_cons] at h
    split at h
    · exact ih h
    · rename_i hpa
      cases h
      simpa using hpa

theorem stripChars_eq_nil_iff (l : List Char) :
    stripChars l = [] ↔ ∀ c ∈ l, isWs c = true := by
  unfold stripChars
  rw [List.reverse_eq_nil_iff, List.dropWhile_eq_nil_iff]
  constructor
  · intro h c hc
    have hsplit := List.takeWhile_append_dropWhile isWs l
    rw [← hsplit] at hc
    rcases List.mem_append.mp hc with hin | hin
    · exact List.mem_takeWhile_imp hin
    · exact h c (List.mem_reverse.mpr hin)
  · intro h c hc
    exact h c ((List.dropWhile_sublist isWs).subset (List.mem_reverse.mp hc))

theorem stripChars_stripChars_ne_nil (l : List Char) (h : stripChars l ≠ []) :
    stripChars (stripChars l) ≠ [] := by
  intro hcon
  rw [stripChars_eq_nil_iff] at hcon
  have hne : ((l.dropWhile isWs).reverse.dropWhile isWs) ≠ [] := by
    intro hnil
    exact h (by unfold stripChars; rw [hnil]; rfl)
  rcases hu : (l.dropWhile isWs).reverse.dropWhile isWs with _ | ⟨x, xs⟩
  · exact hne hu
  · have hxmem : x ∈ stripChars l := by
      unfold stripChars
      rw [hu]
      exact List.mem_reverse.mpr (List.mem_cons_self x xs)
    have := hcon x hxmem
    rw [dropWhile_head_false isWs _ x xs hu] at this
    cases this

theorem chunkLoop_strip_ne_nil (text : List Char) (cs ov : Nat) :
    ∀ (fuel start : Nat) (acc : List (List Char)),
      (∀ c ∈ acc, stripChars c ≠ []) →
      ∀ c ∈ chunkLoop text cs ov fuel start acc, stripChars c ≠ [] := by
  intro fuel
  induction fuel with
  | zero => intro start acc hacc c hc; exact hacc c hc
  | succ n ih =>
    intro start acc hacc c hc
    rw [chunkLoop] at hc
    split at hc
    · refine ih _ _ ?_ c hc
      intro d hd
      split at hd
      · exact hacc d hd
      · rename_i hstrip
        rcases List.mem_append.mp hd with hin | hin
        · exact hacc d hin
        · rw [List.mem_singleton.mp hin]
          exact stripChars_stripChars_ne_nil _ hstrip
    · exact hacc c hc

mutual

theorem extractChunks_nonblank (code : List Char) :
    ∀ t : TSNode, defSpansNonBlank code t = true →
      ∀ c ∈ extractChunks code t, stripChars c ≠ []
  | .node ty s e children => by
    intro hdef c hc
    rw [extractChunks] at hc
    rw [defSpansNonBlank, Bool.and_eq_true] at hdef
    obtain ⟨h1, h2⟩ := hdef
    split at hc
    · rename_i hty
      split at hc
      · rw [List.mem_singleton.mp hc]
        rw [Bool.or_eq_true] at h1
        rcases h1 with hneg | hne
        · rw [hty] at hneg
          cases hneg
        · intro hnil
          rw [hnil] at hne
          cases hne
      · cases hc
    · exact extractChunksList_nonblank code children h2 c hc

theorem extractChunksList_nonblank (code : List Char) :
    ∀ l : List TSNode, defSpansNonBlankList code l = true →
      ∀ c ∈ extractChunksList code l, stripChars c ≠ []
  | [] => by
    intro _ c hc
    rw [extractChunksList] at hc
    cases hc
  | n :: rest => by
    intro hdef c hc
    rw [extractChunksList] at hc
    rw [defSpansNonBlankList, Bool.and_eq_true] at hdef
    obtain ⟨h1, h2⟩ := hdef
    rcases List.mem_append.mp hc with hin | hin
    · exact extractChunks_nonblank code n h1 c hin
    · exact extractChunksList_nonblank code rest h2 c hin

end

theorem searchLoop_eq_map (σ : ServerState) (query : String) :
    ∀ l : List String, searchLoop σ query l = l.map (searchEntry σ query) := by
  intro l
  induction l with
  | nil => rfl
  | cons r rest ih => rw [searchLoop, List.map_cons, ih]

theorem intercalate_single (s : String) : String.intercalate "\n" [s] = s := by
  simp [String.intercalate, String.intercalate.go]

theorem pollLoop_all_notReady (poll : Nat → PollResp) (run_id : String) :
    ∀ (fuel t : Nat), (∀ k, k < fuel → poll (t + 2 * k) = PollResp.notReady) →
      pollLoop poll run_id t fuel = s!"Task {run_id} still processing" := by
  intro fuel
  induction fuel with
  | zero => intro t _; rfl
  | succ n ih =>
    intro t h
    have h0 : poll t = PollResp.notReady := by
      have := h 0 (Nat.succ_pos n)
      simpa using this
    rw [pollLoop, h0]
    refine ih (t + 2) ?_
    intro k hk
    have heq : t + 2 + 2 * k = t + 2 * (k + 1) := by omega
    rw [heq]
    exact h (k + 1) (by omega)

theorem pollLoop_congr (poll1 poll2 : Nat → PollResp) (run_id : String) :
    ∀ (fuel t : Nat), (∀ k, k < fuel → poll1 (t + 2 * k) = poll2 (t + 2 * k)) →
      pollLoop poll1 run_id t fuel = pollLoop poll2 run_id t fuel := by
  intro fuel
  induction fuel with
  | zero => intro t _; rfl
  | succ n ih =>
    intro t h
    have h0 : poll1 t = poll2 t := by
      have := h 0 (Nat.succ_pos n)
      simpa using this
    rw [pollLoop, pollLoop, h0]
    cases poll2 t with
    | success output => rfl
    | exn e => rfl
    | notReady =>
      refine ih (t + 2) ?_
      intro k hk
      have heq : t + 2 + 2 * k = t + 2 * (k + 1) := by omega
      rw [heq]
      exact h (k + 1) (by omega)

/-! ## Claims -/

/-- C9: for every input text whose length is at most the default target chunk
size of 1000 units, generic chunking returns exactly one chunk equal to the
input. -/
theorem chunk_text_small_identity (text : List Char) (h : text.length ≤ 1000) :
    chunk_text text 1000 200 = [text] := by
  unfold chunk_text
  rw [if_pos h]

/-- Witness for C9 at a concrete five-character input. -/
theorem chunk_text_small_identity_witness :
    chunk_text "hello".data 1000 200 = ["hello".data] :=
  chunk_text_small_identity "hello".data (by decide)

/-- C3 counterexample: on the whitespace-only input `"   "` (length at most
the target size) generic chunking returns that input as its single chunk,
which is empty after trimming — refuting the claim for empty and
whitespace-only inputs. -/
theorem chunk_text_blank_counterexample :
    chunk_text "   ".data 1000 200 = ["   ".data] ∧ stripChars "   ".data = [] := by
  constructor
  · rfl
  · decide

/-- C3 (amended): for every input text that is non-empty after trimming
whitespace, no chunking mode returns a chunk that is empty after trimming —
generic chunking unconditionally, and code-mode chunking for every parse
outcome whose function/class definition spans are non-blank (which any
genuine tree-sitter parse of the input is, such spans starting with the
`def`/`class` keyword); a failed parse or an empty extraction falls back to
the generic mode on the same input. -/
theorem chunking_no_blank_chunk (text : List Char) (parse : Except String TSNode)
    (h : stripChars text ≠ [])
    (hp : ∀ root, parse = .ok root → defSpansNonBlank text root = true) :
    (∀ c ∈ chunk_text text 1000 200, stripChars c ≠ []) ∧
    (∀ c ∈ chunk_code_with_tree_sitter text parse, stripChars c ≠ []) := by
  have hgen : ∀ c ∈ chunk_text text 1000 200, stripChars c ≠ [] := by
    intro c hc
    unfold chunk_text at hc
    split at hc
    · rw [List.mem_singleton.mp hc]
      exact h
    · exact chunkLoop_strip_ne_nil text 1000 200 text.length 0 [] (by simp) c hc
  refine ⟨hgen, ?_⟩
  cases parse with
  | error e =>
    intro c hc
    rw [chunk_code_with_tree_sitter] at hc
    exact hgen c hc
  | ok root =>
    intro c hc
    rw [chunk_code_with_tree_sitter] at hc
    split at hc
    · exact hgen c hc
    · exact extractChunks_nonblank text root (hp root rfl) c hc

/-- Witness for the amended C3: a concrete non-blank function source and a
concrete parse of it — both chunking modes return only non-blank chunks. -/
theorem chunking_no_blank_chunk_witness :
    stripChars sampleCode ≠ [] ∧
    defSpansNonBlank sampleCode sampleTree = true ∧
    ((∀ c ∈ chunk_text sampleCode 1000 200, stripChars c ≠ []) ∧
      ∀ c ∈ chunk_code_with_tree_sitter sampleCode (.ok sampleTree), stripChars c ≠ []) :=
  ⟨by decide, by decide,
   chunking_no_blank_chunk sampleCode (.ok sampleTree) (by decide)
     (fun root hr => by cases hr; decide)⟩

/-- C1 counterexample: with `"a"` and `"b"` both registered,
`rename_resource "a" "b"` does not fail with a conflict — it reports success
and overwrites the metadata stored under `"b"` with `"a"`'s metadata. -/
theorem rename_conflict_counterexample :
    stateAB.resources "b" = some sampleDoc ∧
    (rename_resource stateAB "a" "b").1 = "Renamed to b" ∧
    (rename_resource stateAB "a" "b").2.resources "b" = some sampleRepo ∧
    sampleRepo ≠ sampleDoc := by
  refine ⟨by decide, by decide, by decide, by decide⟩

/-- C1 (amended): when `old` is present, `rename_resource old new` succeeds
even if `new` is already registered: it reports `Renamed to new`, stores
`old`'s metadata under `new` (overwriting whatever was there) and removes
`old`. -/
theorem rename_overwrites_target (σ : ServerState) (old new : String) (m m2 : Resource)
    (hold : σ.resources old = some m) (hnew : σ.resources new = some m2)
    (hne : old ≠ new) :
    (rename_resource σ old new).1 = s!"Renamed to {new}" ∧
    (rename_resource σ old new).2.resources new = some m ∧
    (rename_resource σ old new).2.resources old = none := by
  unfold rename_resource
  rw [hold]
  refine ⟨rfl, ?_, ?_⟩
  · simp [update]
  · simp [update, hne]

/-- Witness for the amended C1 at the two-entry registry. -/
theorem rename_overwrites_target_witness :
    (rename_resource stateAB "a" "b").2.resources "b" = some sampleRepo ∧
    (rename_resource stateAB "a" "b").2.resources "a" = none := by
  have h := rename_overwrites_target stateAB "a" "b" sampleRepo sampleDoc
    (by decide) (by decide) (by decide)
  exact ⟨h.2.1, h.2.2⟩

/-- C7: renaming a present `A` to an absent `B` yields `Not found` on a
status lookup of `A`, moves exactly `A`'s prior metadata under `B`, and
changes no other registry entry. -/
theorem rename_atomic_move (σ : ServerState) (A B : String) (m : Resource)
    (hA : σ.resources A = some m) (hB : σ.resources B = none) :
    (rename_resource σ A B).1 = s!"Renamed to {B}" ∧
    check_resource_status (rename_resource σ A B).2 A = "Not found" ∧
    (rename_resource σ A B).2.resources B = some m ∧
    ∀ k, k ≠ A → k ≠ B → (rename_resource σ A B).2.resources k = σ.resources k := by
  have hne : A ≠ B := by
    intro hcon
    rw [hcon, hB] at hA
    cases hA
  unfold rename_resource
  rw [hA]
  refine ⟨rfl, ?_, ?_, ?_⟩
  · simp [check_resource_status, update, hne]
  · simp [update]
  · intro k hkA hkB
    simp [update, hkA, hkB]

/-- Witness for C7: rename the sole entry `"a"` to the absent `"c"`. -/
theorem rename_atomic_move_witness :
    check_resource_status (rename_resource stateA "a" "c").2 "a" = "Not found" ∧
    (rename_resource stateA "a" "c").2.resources "c" = some sampleRepo := by
  have h := rename_atomic_move stateA "a" "c" sampleRepo (by decide) (by decide)
  exact ⟨h.2.1, h.2.2.1⟩

/-- C5: deleting a present identifier removes the registry entry and both
searcher handles, after which a codebase search over that identifier reports
`Not indexed`; deleting an absent identifier returns `Not found` and leaves
the state untouched. -/
theorem delete_removes_all (σ : ServerState) (id query : String) (r : Resource)
    (hq : stripString query ≠ "") (hr : σ.resources id = some r) :
    (delete_resource σ id).1 = s!"Deleted {id}" ∧
    (delete_resource σ id).2.resources id = none ∧
    (delete_resource σ id).2.searchers id = none ∧
    (delete_resource σ id).2.packageSearchers id = none ∧
    search_codebase (delete_resource σ id).2 query [id] = s!"{id}: Not indexed" ∧
    ∀ σ2 : ServerState, σ2.resources id = none → delete_resource σ2 id = ("Not found", σ2) := by
  unfold delete_resource
  rw [hr]
  refine ⟨rfl, by simp [update], by simp [update], by simp [update], ?_, ?_⟩
  · unfold search_codebase
    rw [if_neg hq, if_neg (by simp)]
    rw [searchLoop, searchLoop]
    show String.intercalate "\n" [searchEntry _ query id] = _
    rw [intercalate_single]
    unfold searchEntry
    simp [update]
  · intro σ2 h2
    rw [h2]

/-- Witness for C5: delete `"a"` from the two-entry registry. -/
theorem delete_removes_all_witness :
    (delete_resource stateAB "a").2.resources "a" = none ∧
    (delete_resource stateAB "a").2.searchers "a" = none ∧
    search_codebase (delete_resource stateAB "a").2 "hello" ["a"] = "a: Not indexed" := by
  have h := delete_removes_all stateAB "a" "hello" sampleRepo (by decide) (by decide)
  exact ⟨h.2.1, h.2.2.1, h.2.2.2.2.1⟩

/-- C4: for a non-blank query and a non-empty identifier list, both search
tools return exactly one line per input identifier in input order (the joined
map of the per-identifier entry function), where each entry — independently
of the rest of the batch — is the identifier's search result, its captured
per-identifier error, or a `Not indexed` marker when no live handle exists. -/
theorem search_batch_order_preserved (σ : ServerState) (query : String)
    (repos sources : List String) (hq : stripString query ≠ "")
    (hr : repos ≠ []) (hs : sources ≠ []) :
    search_codebase σ query repos
      = String.intercalate "\n" (repos.map (searchEntry σ query)) ∧
    search_documentation σ query sources
      = String.intercalate "\n" (sources.map (searchEntry σ query)) ∧
    (∀ repo, σ.searchers repo = none → searchEntry σ query repo = s!"{repo}: Not indexed") ∧
    (∀ repo s r, σ.searchers repo = some s → s query = .ok r →
      searchEntry σ query repo = s!"{repo}: {r}") ∧
    (∀ repo s e, σ.searchers repo = some s → s query = .error e →
      searchEntry σ query repo = s!"{repo}: Error {e}") := by
  refine ⟨?_, ?_, ?_, ?_, ?_⟩
  · unfold search_codebase
    rw [if_neg hq, if_neg hr, searchLoop_eq_map]
  · unfold search_documentation
    rw [if_neg hq, if_neg hs, searchLoop_eq_map]
  · intro repo h
    unfold searchEntry
    rw [h]
  · intro repo s r hs1 hs2
    simp [searchEntry, hs1, hs2]
  · intro repo s e hs1 hs2
    simp [searchEntry, hs1, hs2]

/-- Witness for C4 over a state with one working, one failing and one missing
handle: the batch still yields one line per identifier in input order. -/
theorem search_batch_order_preserved_witness :
    search_codebase stateSearch "find" ["x", "y", "z"]
      = String.intercalate "\n" (["x", "y", "z"].map (searchEntry stateSearch "find")) ∧
    search_codebase stateSearch "find" ["x", "y", "z"]
      = "x: match\ny: Error boom\nz: Not indexed" := by
  have h := search_batch_order_preserved stateSearch "find" ["x", "y", "z"] ["x"]
    (by decide) (by decide) (by decide)
  exact ⟨h.1, by decide⟩

/-- C6: a blank query makes both search tools return the single descriptive
error `Query cannot be empty.`, and a non-blank query with an empty identifier
list returns the single list-specific error — in all states, so no backend
searcher is consulted and no per-identifier iteration happens. -/
theorem search_fails_fast (σ : ServerState) (query : String)
    (repos sources : List String) :
    (stripString query = "" →
      search_codebase σ query repos = "Query cannot be empty." ∧
      search_documentation σ query sources = "Query cannot be empty.") ∧
    (stripString query ≠ "" →
      search_codebase σ query [] = "No repositories specified." ∧
      search_documentation σ query [] = "No sources specified.") := by
  constructor
  · intro h
    constructor
    · unfold search_codebase
      rw [if_pos h]
    · unfold search_documentation
      rw [if_pos h]
  · intro h
    constructor
    · unfold search_codebase
      rw [if_neg h, if_pos rfl]
    · unfold search_documentation
      rw [if_neg h, if_pos rfl]

/-- Witness for C6 at a whitespace-only query and at an empty list. -/
theorem search_fails_fast_witness :
    (search_codebase stateSearch "   " ["x"] = "Query cannot be empty." ∧
      search_documentation stateSearch "   " ["x"] = "Query cannot be empty.") ∧
    (search_codebase stateSearch "find" [] = "No repositories specified." ∧
      search_documentation stateSearch "find" [] = "No sources specified.") :=
  ⟨(search_fails_fast stateSearch "   " ["x"] ["x"]).1 (by decide),
   (search_fails_fast stateSearch "find" [] []).2 (by decide)⟩

/-- C2 counterexample: indexing documentation from the empty registry with a
failing fetch returns an error string but records no registry entry at all —
the resource status is `Not found`, not `error` — and a repository indexing
whose cocoindex chunking stage fails propagates the exception past the
operation boundary instead of returning an error string; both refute the
claim. -/
theorem index_failure_status_counterexample :
    (index_documentation emptyState true (.error "connection refused")
        (fun _ => .error "x") "https://example.com/guide").1
      = "Error indexing https://example.com/guide: connection refused" ∧
    (index_documentation emptyState true (.error "connection refused")
        (fun _ => .error "x") "https://example.com/guide").2 = emptyState ∧
    check_resource_status
      (index_documentation emptyState true (.error "connection refused")
        (fun _ => .error "x") "https://example.com/guide").2 "guide" = "Not found" ∧
    index_repository emptyState true false (.ok ()) (.error "tree-sitter parse crash")
        (fun _ => .error "x") "https://h/proj" "main"
      = .error "tree-sitter parse crash" := by
  refine ⟨by decide, rfl, by decide, rfl⟩

/-- C2 (amended): for both indexing operations, a fetch failure (git clone /
HTTP GET) or a LEANN index-build failure returns a human-readable error
string and leaves the server state exactly unchanged — no searcher handle is
registered and no registry entry (in particular no `error` status) is
written; the one exception is the repository chunking stage (cocoindex /
tree-sitter, server.py lines 219-230, outside the try/except), whose failure
raises past the operation boundary instead of returning a string, equally
without touching the state. -/
theorem index_failure_state_unchanged (σ : ServerState) (e exc : String)
    (cs : List (List Char)) (build : List (List Char) → Except String Searcher)
    (chunks : Except String (List (List Char))) (repo_url branch url content : String) :
    index_repository σ true false (.error e) chunks build repo_url branch
      = .ok (s!"Git clone failed: {e}", σ) ∧
    (build (cs.filter (fun c => !(stripChars c).isEmpty)) = .error e →
      index_repository σ true false (.ok ()) (.ok cs) build repo_url branch
        = .ok (s!"Error building index: {e}", σ)) ∧
    index_repository σ true false (.ok ()) (.error exc) build repo_url branch
      = .error exc ∧
    index_documentation σ true (.error e) build url = (s!"Error indexing {url}: {e}", σ) ∧
    (build (chunk_text content.data 1000 200) = .error e →
      index_documentation σ true (.ok content) build url
        = (s!"Error building index: {e}", σ)) := by
  refine ⟨rfl, ?_, rfl, rfl, ?_⟩
  · intro h
    simp [index_repository, h]
  · intro h
    simp [index_documentation, h]

/-- Witness for the amended C2: a failing builder on both paths returns the
error string and the unchanged empty state. -/
theorem index_failure_state_unchanged_witness :
    index_repository emptyState true false (.ok ()) (.ok [])
        (fun _ => .error "disk full") "https://h/proj" "main"
      = .ok ("Error building index: disk full", emptyState) ∧
    index_documentation emptyState true (.ok "hello")
        (fun _ => .error "disk full") "https://example.com/guide"
      = ("Error building index: disk full", emptyState) := by
  have h := index_failure_state_unchanged emptyState "disk full" "exc" []
    (fun _ => .error "disk full") (.ok []) "https://h/proj" "main"
    "https://example.com/guide" "hello"
  exact ⟨h.2.1 rfl, h.2.2.2.2 rfl⟩

/-- C8: with a valid key and successful submission, the deep-research bridge
polls at clock instants 0, 2, 4, … (a fixed 2-unit interval) for at most 30
attempts — its outcome depends only on the first 30 probes — and when all 30
probes find no result it returns the still-processing message, which contains
the run identifier; the function is total, so no exception escapes and no
unbounded blocking occurs. -/
theorem deep_research_bounded (key run_id query : String) :
    (∀ poll : Nat → PollResp, (∀ k, k < 30 → poll (2 * k) = PollResp.notReady) →
      kia_deep_research_agent poll (some key) (.ok run_id) query
        = s!"Task {run_id} still processing" ∧
      kia_deep_research_agent poll (some key) (.ok run_id) query
        = "Task " ++ run_id ++ " still processing") ∧
    (∀ poll1 poll2 : Nat → PollResp, (∀ k, k < 30 → poll1 (2 * k) = poll2 (2 * k)) →
      kia_deep_research_agent poll1 (some key) (.ok run_id) query
        = kia_deep_research_agent poll2 (some key) (.ok run_id) query) := by
  constructor
  · intro poll h
    have hmain : kia_deep_research_agent poll (some key) (.ok run_id) query
        = s!"Task {run_id} still processing" := by
      unfold kia_deep_research_agent
      refine pollLoop_all_notReady poll run_id 30 0 ?_
      intro k hk
      have := h k hk
      simpa using this
    exact ⟨hmain, hmain⟩
  · intro poll1 poll2 h
    unfold kia_deep_research_agent
    refine pollLoop_congr poll1 poll2 run_id 30 0 ?_
    intro k hk
    have := h k hk
    simpa using this

/-- Witness for C8: a never-ready endpoint yields the still-processing
message with the run identifier embedded. -/
theorem deep_research_bounded_witness :
    kia_deep_research_agent (fun _ => PollResp.notReady) (some "key") (.ok "run42") "q"
      = "Task run42 still processing" := by
  have h := (deep_research_bounded "key" "run42" "q").1
    (fun _ => PollResp.notReady) (fun _ _ => rfl)
  exact h.2

/-- C10: after a successful (cache-missing) content read of a registered
identifier, deleting that resource leaves the memo table of
`read_source_content` untouched, so a subsequent read returns the previously
cached content even though an uncached read of the deleted identifier would
now return `Not found`. -/
theorem delete_preserves_read_cache (fs : String → Option (Except String String))
    (σ : ServerState) (id : String) (r : Resource)
    (hres : σ.resources id = some r)
    (hmiss : cacheFind σ.readCache id = none) :
    (delete_resource (read_source_content fs σ id).2 id).2.readCache
      = (read_source_content fs σ id).2.readCache ∧
    (read_source_content fs
        (delete_resource (read_source_content fs σ id).2 id).2 id).1
      = (read_source_content fs σ id).1 ∧
    readSourceUncached fs
        (delete_resource (read_source_content fs σ id).2 id).2 id
      = "Not found" := by
  unfold read_source_content
  rw [hmiss]
  unfold delete_resource
  simp only [hres]
  refine ⟨by trivial, ?_, ?_⟩
  · simp [cacheFind]
  · unfold readSourceUncached
    simp [update]

/-- Witness for C10: read `"x"`, delete it, read again — the cached text
comes back while the uncached read reports `Not found`. -/
theorem delete_preserves_read_cache_witness :
    (read_source_content (fun _ => some (.ok "file text"))
        (delete_resource
          ((read_source_content (fun _ => some (.ok "file text")) stateCache "x").2) "x").2
        "x").1
      = (read_source_content (fun _ => some (.ok "file text")) stateCache "x").1 ∧
    readSourceUncached (fun _ => some (.ok "file text"))
        (delete_resource
          ((read_source_content (fun _ => some (.ok "file text")) stateCache "x").2) "x").2
        "x"
      = "Not found" := by
  have h := delete_preserves_read_cache (fun _ => some (.ok "file text"))
    stateCache "x" sampleRepo (by decide) rfl
  exact ⟨h.2.1, h.2.2⟩

end KiaMcp
